import Mathlib

/-!
Shallow embedding of the browser-side Upload/Ask client in
`src/ADA_Project/backend/static/js/app.js`.

The client keeps one piece of mutable session state (`DATASET_ID`) and a few
DOM output areas (dropzone text, metadata panel, answer text, chart, preview
text).  We model the DOM outputs and the session handle as an explicit
`AppState` record, network round trips as explicit arguments describing the
resolved fetch outcome, and the observable side effects (network requests,
alerts, plot calls, image export, file save) as an `Effect` list returned
alongside the new state.

JavaScript-specific behaviour is modelled explicitly:
  * `x || d` on strings/optional strings: falsy means `undefined`/`null`/`""`,
  * template-literal interpolation of an `undefined` property produces the
    literal text `"undefined"`.
-/

namespace ADA

/-- JS `String.prototype.trim`: strips leading and trailing whitespace
(space, tab, carriage return, line feed). -/
def jsTrim (s : String) : String :=
  ⟨((s.data.dropWhile Char.isWhitespace).reverse.dropWhile Char.isWhitespace).reverse⟩

/-- JS truthiness test for a possibly-null/undefined string (`!x`):
`null`/`undefined` and the empty string are falsy. -/
def jsFalsyStr : Option String → Bool
  | none => true
  | some s => s == ""

/-- JS `x || d` for a possibly-undefined string `x`: the default `d` is used
when `x` is `undefined`/`null` or the empty string. -/
def jsOrStr (x : Option String) (d : String) : String :=
  match x with
  | none => d
  | some s => if s = "" then d else s

/-- JS template-literal interpolation of a possibly-undefined string value:
interpolating `undefined` produces the literal text "undefined". -/
def jsInterpStr : Option String → String
  | none => "undefined"
  | some s => s

/-- A Plotly figure specification `{data, layout}`; the client treats both
fields as opaque payloads handed to the plotting library. -/
structure Figure where
  data : String
  layout : String
deriving DecidableEq, Repr

/-- The `agg_preview` field of an ask response as the client observes it:
absent (`undefined`), present but not an array, or an array whose only
relevant attribute is its length (row contents are never inspected). -/
inductive AggPreview where
  | absent
  | nonArray
  | array (rows : List Unit)
deriving DecidableEq, Repr

/-- The `summary` sub-object of dataset metadata. -/
structure MetaSummary where
  quick_trend : Option String
deriving DecidableEq, Repr

/-- Dataset metadata returned by the upload endpoint. -/
structure DatasetMeta where
  rows : Nat
  cols : Nat
  columns : Option (List String)
  logical_types : Option (List (String × String))
  summary : Option MetaSummary
deriving DecidableEq, Repr

/-- Observable side effects of the client handlers. -/
inductive Effect where
  | uploadRequest (file : String)
  | askRequest (dataset_id question : String)
  | alertShown (msg : String)
  | plotCall (fig : Figure)
  | exportPng (width height : Nat)
  | saveFile (filename url : String)
deriving DecidableEq, Repr

/-- The client's session handle plus the DOM areas it writes. -/
structure AppState where
  dataset_id : Option String
  dropzoneText : String
  metaHidden : Bool
  metaRows : Nat
  metaCols : Nat
  metaQuickTrend : String
  columnCards : List (String × String)
  qaHidden : Bool
  answerText : String
  chart : Option Figure
  previewText : String
deriving DecidableEq, Repr

/-- State of the page before any interaction. -/
def initState : AppState :=
  { dataset_id := none
    dropzoneText := ""
    metaHidden := true
    metaRows := 0
    metaCols := 0
    metaQuickTrend := ""
    columnCards := []
    qaHidden := true
    answerText := ""
    chart := none
    previewText := "" }

/-- `renderMeta(meta)` (app.js lines 91-114): unhides the metadata panel,
writes the row/column counts and the quick-trend line, and rebuilds one card
per column.  Each card's innerHTML interpolates the column name and the value
`meta.logical_types ? meta.logical_types[c] : ""`; when `logical_types` is
present but has no entry for `c`, the interpolated value is the JS
`undefined`, which renders as the text "undefined".  We record each card as
its (name, small-label) pair. -/
def renderMeta (st : AppState) (meta : DatasetMeta) : AppState :=
  let quickTrend :=
    match meta.summary with
    | some s =>
        match s.quick_trend with
        | some t => if t = "" then "—" else t
        | none => "—"
    | none => "—"
  { st with
    metaHidden := false
    metaRows := meta.rows
    metaCols := meta.cols
    metaQuickTrend := quickTrend
    columnCards :=
      (meta.columns.getD []).map fun c =>
        (c,
          match meta.logical_types with
          | some lt => jsInterpStr (lt.lookup c)
          | none => "") }

/-- Body of an upload response after `resp.json()`. -/
structure UploadBody where
  dataset_id : Option String
  meta : DatasetMeta
  error : Option String
deriving DecidableEq, Repr

/-- Resolved outcome of the upload fetch: an HTTP response whose JSON body
parsed (with its `resp.ok` flag), or a thrown transport/parse error with the
thrown message. -/
inductive UploadFetch where
  | response (ok : Bool) (body : UploadBody)
  | transportError (msg : String)
deriving DecidableEq, Repr

/-- `handleUpload()` (app.js lines 55-85).  Returns with no effect when no
file is selected; otherwise posts the file, and on a 2xx response stores
`data.dataset_id`, renders the metadata and unhides the Q&A panel, while on a
non-2xx response or a thrown error it only writes an error message into the
dropzone text. -/
def handleUpload (st : AppState) (file : Option String) (fetch : UploadFetch) :
    AppState × List Effect :=
  match file with
  | none => (st, [])
  | some f =>
    let st1 := { st with dropzoneText := "Uploading..." }
    match fetch with
    | .transportError msg =>
        ({ st1 with dropzoneText := "Error: " ++ msg }, [Effect.uploadRequest f])
    | .response ok body =>
        if ok then
          let st2 := renderMeta { st1 with dataset_id := body.dataset_id } body.meta
          ({ st2 with
              dropzoneText := "Upload complete! Ask a question below."
              qaHidden := false },
           [Effect.uploadRequest f])
        else
          ({ st1 with dropzoneText := "Error: " ++ jsOrStr body.error "Upload failed" },
           [Effect.uploadRequest f])

/-- Body of an ask response after `resp.json()`. -/
structure AskBody where
  answer : Option String
  figure : Option Figure
  agg_preview : AggPreview
  error : Option String
deriving DecidableEq, Repr

/-- Resolved outcome of the ask fetch. -/
inductive AskFetch where
  | response (ok : Bool) (body : AskBody)
  | transportError (msg : String)
deriving DecidableEq, Repr

/-- `askQuestion()` (app.js lines 130-176).  Trims the question text and
returns silently when it is empty; alerts and returns when `DATASET_ID` is
falsy; otherwise writes the "Thinking..." placeholder, clears the preview,
posts the question, and on a 2xx response renders the answer (with a fallback
text for a falsy answer), plots the figure when one is present, and writes
the preview row count for a non-empty `agg_preview` array (clearing it
otherwise); on a non-2xx response or thrown error it writes the error message
into the answer area. -/
def askQuestion (st : AppState) (questionValue : String) (fetch : AskFetch) :
    AppState × List Effect :=
  let q := jsTrim questionValue
  if q = "" then (st, [])
  else if jsFalsyStr st.dataset_id then
    (st, [Effect.alertShown "Upload a dataset first."])
  else
    let did := st.dataset_id.getD ""
    let st1 := { st with answerText := "Thinking...", previewText := "" }
    match fetch with
    | .transportError msg =>
        ({ st1 with answerText := "Error: " ++ msg }, [Effect.askRequest did q])
    | .response ok body =>
        if ok then
          let st2 := { st1 with answerText := jsOrStr body.answer "(No insight returned)" }
          let plotted :=
            match body.figure with
            | some fig => ({ st2 with chart := some fig }, [Effect.plotCall fig])
            | none => (st2, ([] : List Effect))
          let st4 :=
            match body.agg_preview with
            | .array rows =>
                if rows.length > 0 then
                  { plotted.1 with previewText := "Preview rows: " ++ toString rows.length }
                else
                  { plotted.1 with previewText := "" }
            | _ => { plotted.1 with previewText := "" }
          (st4, Effect.askRequest did q :: plotted.2)
        else
          ({ st1 with answerText := "Error: " ++ jsOrStr body.error "Ask failed" },
           [Effect.askRequest did q])

/-- Resolved outcome of `Plotly.toImage`: a data URL, or a thrown error. -/
inductive ExportResult where
  | ok (dataUrl : String)
  | failed
deriving DecidableEq, Repr

/-- Click handler of the download-PNG button (app.js lines 196-218).  Alerts
and returns when no chart has been rendered (`chartDiv.data` unset);
otherwise calls `Plotly.toImage` at width 1000 and height 600 and triggers a
client-side save of `chart.png`, alerting non-fatally when the export
throws.  The handler never changes any state. -/
def downloadChartPng (st : AppState) (er : ExportResult) : AppState × List Effect :=
  match st.chart with
  | none => (st, [Effect.alertShown "No chart available to download."])
  | some _ =>
    match er with
    | .ok dataUrl =>
        (st, [Effect.exportPng 1000 600, Effect.saveFile "chart.png" dataUrl])
    | .failed =>
        (st, [Effect.exportPng 1000 600, Effect.alertShown "Could not download chart as PNG."])

/-! ## Shared concrete fixtures -/

/-- A concrete figure specification. -/
def figA : Figure := { data := "bars", layout := "grid" }

/-- A state right after a successful upload of dataset `d1`. -/
def readyState : AppState := { initState with dataset_id := some "d1" }

/-- A ready state in which an earlier question already rendered a chart. -/
def readyChartState : AppState := { readyState with chart := some figA }

/-- The metadata of the spec's worked example: ten rows, three columns
`a`, `b`, `c`, and a `logical_types` map holding only an entry for `a`. -/
def metaExample : DatasetMeta :=
  { rows := 10
    cols := 3
    columns := some ["a", "b", "c"]
    logical_types := some [("a", "numeric")]
    summary := none }

/-! ## Claims -/

/-- Claim C1 (refuted by the code): when `logical_types` is present but lacks
an entry for a column, the card's small label is not the empty string: the
lookup yields the JS `undefined`, and the template literal renders it as the
literal text "undefined".  Evaluated at the spec's own worked example, the
cards for `b` and `c` carry the label "undefined". -/
theorem C1_missing_type_renders_undefined :
    (renderMeta initState metaExample).columnCards
      = [("a", "numeric"), ("b", "undefined"), ("c", "undefined")] ∧
    ¬ (renderMeta initState metaExample).columnCards
      = [("a", "numeric"), ("b", ""), ("c", "")] := by
  constructor
  · rfl
  · decide

/-- Claim C2: for every question string that is empty after trimming,
`askQuestion` is a no-op: it issues no network request (no effects at all)
and leaves the whole state, in particular the answer, chart and preview
areas, unchanged. -/
theorem C2_blank_question_noop (st : AppState) (v : String) (f : AskFetch)
    (h : jsTrim v = "") : askQuestion st v f = (st, []) := by
  unfold askQuestion
  simp [h]

/-- Witness for C2 at a concrete whitespace-only question. -/
theorem C2_blank_question_noop_witness :
    askQuestion initState "   " (AskFetch.transportError "x") = (initState, []) :=
  C2_blank_question_noop initState "   " (AskFetch.transportError "x") (by decide)

/-- Claim C3: for every non-blank question submitted while no dataset id is
set, `askQuestion` shows the blocking alert "Upload a dataset first." and
issues no request to the ask endpoint. -/
theorem C3_no_dataset_alert (st : AppState) (v : String) (f : AskFetch)
    (h1 : jsTrim v ≠ "") (h2 : st.dataset_id = none) :
    askQuestion st v f = (st, [Effect.alertShown "Upload a dataset first."]) ∧
    ∀ d q, Effect.askRequest d q ∉ (askQuestion st v f).2 := by
  have hmain : askQuestion st v f = (st, [Effect.alertShown "Upload a dataset first."]) := by
    unfold askQuestion
    simp [h1, h2, jsFalsyStr]
  refine ⟨hmain, ?_⟩
  intro d q
  rw [hmain]
  simp

/-- Witness for C3: a concrete non-blank question against the initial state. -/
theorem C3_no_dataset_alert_witness :
    askQuestion initState "hi" (AskFetch.transportError "x")
      = (initState, [Effect.alertShown "Upload a dataset first."]) :=
  (C3_no_dataset_alert initState "hi" (AskFetch.transportError "x") (by decide) rfl).1

/-- Claim C4: on a successful ask response, the preview text is
"Preview rows: N" when `agg_preview` is an array of length N > 0, and the
empty string when it is an empty array, absent, or not an array. -/
theorem C4_preview_text (st : AppState) (v : String) (body : AskBody)
    (h1 : jsTrim v ≠ "") (h2 : jsFalsyStr st.dataset_id = false) :
    (∀ rows, body.agg_preview = AggPreview.array rows → 0 < rows.length →
        (askQuestion st v (AskFetch.response true body)).1.previewText
          = "Preview rows: " ++ toString rows.length) ∧
    (∀ rows, body.agg_preview = AggPreview.array rows → rows.length = 0 →
        (askQuestion st v (AskFetch.response true body)).1.previewText = "") ∧
    (body.agg_preview = AggPreview.absent →
        (askQuestion st v (AskFetch.response true body)).1.previewText = "") ∧
    (body.agg_preview = AggPreview.nonArray →
        (askQuestion st v (AskFetch.response true body)).1.previewText = "") := by
  obtain ⟨ans, fig, agg, err⟩ := body
  refine ⟨?_, ?_, ?_, ?_⟩
  · rintro rows rfl hlen
    cases fig <;> simp [askQuestion, h1, h2, hlen]
  · rintro rows rfl hlen
    cases fig <;> simp [askQuestion, h1, h2, hlen]
  · rintro rfl
    cases fig <;> simp [askQuestion, h1, h2]
  · rintro rfl
    cases fig <;> simp [askQuestion, h1, h2]

/-- Witness for C4: three preview rows produce the text "Preview rows: 3". -/
theorem C4_preview_text_witness :
    (askQuestion readyState "avg by month"
        (AskFetch.response true
          { answer := some "ok", figure := none,
            agg_preview := AggPreview.array [(), (), ()], error := none })).1.previewText
      = "Preview rows: 3" :=
  (C4_preview_text readyState "avg by month"
      { answer := some "ok", figure := none,
        agg_preview := AggPreview.array [(), (), ()], error := none }
      (by decide) (by decide)).1 [(), (), ()] rfl (by decide)

/-- Claim C5: on every failed ask request (thrown transport/parse error, or a
non-2xx response), the answer area shows the error text and the previously
rendered chart is left unchanged; no plot call occurs on the failure path. -/
theorem C5_failure_keeps_chart (st : AppState) (v msg : String) (body : AskBody)
    (h1 : jsTrim v ≠ "") (h2 : jsFalsyStr st.dataset_id = false) :
    ((askQuestion st v (AskFetch.transportError msg)).1.answerText = "Error: " ++ msg ∧
     (askQuestion st v (AskFetch.transportError msg)).1.chart = st.chart ∧
     ∀ fig, Effect.plotCall fig ∉ (askQuestion st v (AskFetch.transportError msg)).2) ∧
    ((askQuestion st v (AskFetch.response false body)).1.answerText
        = "Error: " ++ jsOrStr body.error "Ask failed" ∧
     (askQuestion st v (AskFetch.response false body)).1.chart = st.chart ∧
     ∀ fig, Effect.plotCall fig ∉ (askQuestion st v (AskFetch.response false body)).2) := by
  constructor
  · refine ⟨?_, ?_, ?_⟩ <;> simp [askQuestion, h1, h2]
  · refine ⟨?_, ?_, ?_⟩ <;> simp [askQuestion, h1, h2]

/-- Witness for C5: a transport error leaves the earlier chart in place and
shows the thrown message. -/
theorem C5_failure_keeps_chart_witness :
    (askQuestion readyChartState "total" (AskFetch.transportError "Failed to fetch")).1.chart
      = some figA ∧
    (askQuestion readyChartState "total" (AskFetch.transportError "Failed to fetch")).1.answerText
      = "Error: Failed to fetch" := by
  have h := C5_failure_keeps_chart readyChartState "total" "Failed to fetch"
      { answer := none, figure := none, agg_preview := AggPreview.absent, error := none }
      (by decide) (by decide)
  exact ⟨by rw [h.1.2.1]; rfl, h.1.1⟩

/-- Claim C6: on every failed upload (thrown transport/parse error, or a
non-2xx response), the dropzone surfaces the backend error message or the
generic "Upload failed" text, and the prior `DATASET_ID` value is unchanged. -/
theorem C6_upload_failure_keeps_dataset (st : AppState) (f msg : String) (body : UploadBody) :
    ((handleUpload st (some f) (UploadFetch.transportError msg)).1.dataset_id = st.dataset_id ∧
     (handleUpload st (some f) (UploadFetch.transportError msg)).1.dropzoneText
        = "Error: " ++ msg) ∧
    ((handleUpload st (some f) (UploadFetch.response false body)).1.dataset_id = st.dataset_id ∧
     (handleUpload st (some f) (UploadFetch.response false body)).1.dropzoneText
        = "Error: " ++ jsOrStr body.error "Upload failed") := by
  constructor
  · exact ⟨rfl, rfl⟩
  · exact ⟨rfl, rfl⟩

/-- Claim C7: `askQuestion` never modifies the dataset handle: whatever the
question text and however the request resolves, `DATASET_ID` is the same
after the call as before it. -/
theorem C7_ask_preserves_dataset_id (st : AppState) (v : String) (f : AskFetch) :
    (askQuestion st v f).1.dataset_id = st.dataset_id := by
  unfold askQuestion
  by_cases hq : jsTrim v = ""
  · simp [hq]
  · by_cases hd : jsFalsyStr st.dataset_id
    · simp [hq, hd]
    · rcases f with ⟨ok, body⟩ | msg
      · obtain ⟨ans, fig, agg, err⟩ := body
        cases ok <;> cases fig <;> cases agg <;>
          simp [hq, hd] <;> split <;> rfl
      · simp [hq, hd]

/-- Claim C8: the chart-PNG handler alerts and performs no export when no
chart is rendered; otherwise it exports at exactly width 1000 and height 600
and saves `chart.png`, and on export failure it alerts non-fatally.  The
state is unchanged in every case. -/
theorem C8_download_png (st : AppState) (er : ExportResult) (url : String) :
    (st.chart = none →
        downloadChartPng st er = (st, [Effect.alertShown "No chart available to download."])) ∧
    (st.chart ≠ none →
        downloadChartPng st (ExportResult.ok url)
          = (st, [Effect.exportPng 1000 600, Effect.saveFile "chart.png" url])) ∧
    (st.chart ≠ none →
        downloadChartPng st ExportResult.failed
          = (st, [Effect.exportPng 1000 600,
                  Effect.alertShown "Could not download chart as PNG."])) := by
  cases hc : st.chart with
  | none => exact ⟨fun _ => by simp [downloadChartPng, hc],
      fun h => absurd rfl h, fun h => absurd rfl h⟩
  | some fig =>
      refine ⟨fun h => by simp [hc] at h, fun _ => ?_, fun _ => ?_⟩ <;>
        simp [downloadChartPng, hc]

/-- Witness for C8: all three branches at concrete states. -/
theorem C8_download_png_witness :
    downloadChartPng initState (ExportResult.ok "u")
      = (initState, [Effect.alertShown "No chart available to download."]) ∧
    downloadChartPng readyChartState (ExportResult.ok "u")
      = (readyChartState, [Effect.exportPng 1000 600, Effect.saveFile "chart.png" "u"]) ∧
    downloadChartPng readyChartState ExportResult.failed
      = (readyChartState, [Effect.exportPng 1000 600,
          Effect.alertShown "Could not download chart as PNG."]) :=
  ⟨(C8_download_png initState (ExportResult.ok "u") "u").1 rfl,
   (C8_download_png readyChartState (ExportResult.ok "u") "u").2.1 (by decide),
   (C8_download_png readyChartState ExportResult.failed "u").2.2 (by decide)⟩

/-- Claim C9: a successful ask response with no `figure` field leaves the
chart area exactly as it was before the question was submitted, and no plot
call occurs. -/
theorem C9_no_figure_keeps_chart (st : AppState) (v : String) (body : AskBody)
    (h1 : jsTrim v ≠ "") (h2 : jsFalsyStr st.dataset_id = false)
    (h3 : body.figure = none) :
    (askQuestion st v (AskFetch.response true body)).1.chart = st.chart ∧
    ∀ fig, Effect.plotCall fig ∉ (askQuestion st v (AskFetch.response true body)).2 := by
  obtain ⟨ans, fig, agg, err⟩ := body
  cases h3
  constructor
  · cases agg with
    | array rows =>
        by_cases hlen : 0 < rows.length <;> simp [askQuestion, h1, h2, hlen]
    | absent => simp [askQuestion, h1, h2]
    | nonArray => simp [askQuestion, h1, h2]
  · intro g
    cases agg with
    | array rows =>
        by_cases hlen : 0 < rows.length <;> simp [askQuestion, h1, h2, hlen]
    | absent => simp [askQuestion, h1, h2]
    | nonArray => simp [askQuestion, h1, h2]

/-- Witness for C9: the chart from an earlier question persists. -/
theorem C9_no_figure_keeps_chart_witness :
    (askQuestion readyChartState "trend"
        (AskFetch.response true
          { answer := some "flat", figure := none,
            agg_preview := AggPreview.absent, error := none })).1.chart = some figA := by
  have h := (C9_no_figure_keeps_chart readyChartState "trend"
      { answer := some "flat", figure := none,
        agg_preview := AggPreview.absent, error := none }
      (by decide) (by decide) rfl).1
  rw [h]
  rfl

/-- Claim C10: the blank-question check runs before the dataset check: a
question that is empty after trimming returns silently, with no alert, even
when no dataset id is set. -/
theorem C10_blank_check_first (st : AppState) (v : String) (f : AskFetch)
    (h1 : jsTrim v = "") (_h2 : st.dataset_id = none) :
    askQuestion st v f = (st, []) ∧
    ∀ m, Effect.alertShown m ∉ (askQuestion st v f).2 := by
  have hmain : askQuestion st v f = (st, []) := by
    unfold askQuestion
    simp [h1]
  exact ⟨hmain, fun m => by rw [hmain]; simp⟩

/-- Witness for C10: a whitespace question with no dataset set produces
neither an alert nor any other effect. -/
theorem C10_blank_check_first_witness :
    askQuestion initState " " (AskFetch.transportError "x") = (initState, []) :=
  (C10_blank_check_first initState " " (AskFetch.transportError "x") (by decide) rfl).1

end ADA
